import Mathlib

/-!
Verification of the watch multiplexer / process supervisor of
LSP-file-watcher-chokidar, shallowly embedded from `src/watcher.py`.

The embedding models:
- the inbound payload dispatch (`FileWatcherChokidar.on_payload`),
- the transport read loop step (`StringTransportHandler.read_data`) with a
  faithful strict UTF-8 decoder standing in for Python's `bytes.decode`,
- the registration table / process lifecycle state machine
  (`register_watcher`, `_on_watcher_added`, `_on_watcher_removed`),
- the dependency installer (`_initialize_storage` and
  `TemporaryInstallationMarker`) over an abstract filesystem state.

Python dicts are modelled as association lists with unique keys (insertion
order preserved); the weak reference held for each handler is modelled by an
`Option Nat` giving the referent if it is still alive at the moment of the
dispatch under consideration. Exceptions are modelled with `Except` or
explicit result constructors.
-/

/-- Python dict lookup `d[key]` as an `Option` (the raising form is handled at
use sites). -/
def dictGet {α : Type} : List (String × α) → String → Option α
  | [], _ => none
  | (k, v) :: rest, key => if k = key then some v else dictGet rest key

/-- Python dict assignment `d[key] = v`: replaces the value if the key exists,
otherwise appends (insertion order). -/
def dictSet {α : Type} : List (String × α) → String → α → List (String × α)
  | [], key, v => [(key, v)]
  | (k, w) :: rest, key, v =>
    if k = key then (key, v) :: rest else (k, w) :: dictSet rest key v

/-- Python `d.pop(key)` with no default: `some` of the dict without the key if
the key exists, `none` when the pop would raise `KeyError`. -/
def dictPop {α : Type} : List (String × α) → String → Option (List (String × α))
  | [], _ => none
  | (k, v) :: rest, key =>
    if k = key then some rest
    else (dictPop rest key).map ((k, v) :: ·)

/-- Python `c in s` membership of a character in a string. -/
def pyContains (s : String) (c : Char) : Bool :=
  s.toList.contains c

/-- First character test (`s.startswith(c)` for a one-character prefix). -/
def strStartsWith (s : String) (c : Char) : Bool :=
  match s.toList with
  | [] => false
  | d :: _ => d == c

/-- Last character test (`s.endswith(c)` for a one-character suffix). -/
def strEndsWith (s : String) (c : Char) : Bool :=
  match s.toList.getLast? with
  | none => false
  | some d => d == c

/-- POSIX `os.path.join(a, b)` for two components, as used by `on_payload`. -/
def pathJoin (a b : String) : String :=
  if strStartsWith b '/' then b
  else if a = "" ∨ strEndsWith a '/' then a ++ b
  else a ++ "/" ++ b

/-- Split a character list at its first colon: the part before it and the rest
after it, or `none` when no colon occurs. -/
def splitFirstColon : List Char → Option (List Char × List Char)
  | [] => none
  | c :: rest =>
    if c = ':' then some ([], rest)
    else (splitFirstColon rest).map (fun p => (c :: p.1, p.2))

/-- Python `payload.split(':', 2)`: split on at most the first two colons; the
remainder (which may itself contain colons) stays as the third part. -/
def pySplitColon2 (s : String) : List String :=
  match splitFirstColon s.toList with
  | none => [s]
  | some (a, r1) =>
    match splitFirstColon r1 with
    | none => [String.mk a, String.mk r1]
    | some (b, r2) => [String.mk a, String.mk b, String.mk r2]

/-- JSON string escaping as `json.dumps` with `ensure_ascii=False` performs it
on the strings appearing in the register/unregister commands. -/
def jsonEscapeChar (c : Char) : String :=
  if c = '"' then "\\\""
  else if c = '\\' then "\\\\"
  else if c = '\n' then "\\n"
  else if c = '\t' then "\\t"
  else if c = '\r' then "\\r"
  else String.singleton c

/-- JSON string literal (quote and escape). -/
def jsonStrLit (s : String) : String :=
  "\"" ++ String.join (s.toList.map jsonEscapeChar) ++ "\""

/-- JSON array of string literals with compact separators. -/
def jsonStrList (xs : List String) : String :=
  "[" ++ String.intercalate "," (xs.map jsonStrLit) ++ "]"

/-- The register command line built in `_on_watcher_added` and serialized by
`_to_json` (compact separators, insertion key order: cwd, events, ignores,
patterns, uid). -/
def registerCommand (root_path : String) (patterns events ignores : List String)
    (uid : Nat) : String :=
  "\x7b\"register\":\x7b\"cwd\":" ++ jsonStrLit root_path
    ++ ",\"events\":" ++ jsonStrList events
    ++ ",\"ignores\":" ++ jsonStrList ignores
    ++ ",\"patterns\":" ++ jsonStrList patterns
    ++ ",\"uid\":" ++ toString uid ++ "\x7d\x7d"

/-- The unregister command line built in `_on_watcher_removed`. -/
def unregisterCommand (controller_id : Nat) : String :=
  "\x7b\"unregister\":" ++ toString controller_id ++ "\x7d"

/-- One registration table entry: `self._handlers[uid] = (weakref.ref(handler),
root_path)`. The weak reference is modelled by `Option Nat`: `some h` when the
referent (identified by `h`) is still alive when it gets dereferenced, `none`
when it has expired. -/
structure RegEntry where
  handler : Option Nat
  rootPath : String
deriving DecidableEq

/-- Outcome of one `on_payload` call. `logged` means the line was logged and
discarded (the method returned normally); `raised` means an uncaught Python
exception escapes `on_payload`; `invoked` records the handler object called and
the batch passed to `on_file_event_async`. -/
inductive PayloadResult where
  | logged (message : String)
  | raised (error : String)
  | invoked (handler : Nat) (batch : List (String × String))
deriving DecidableEq

/-- Shallow embedding of `FileWatcherChokidar.on_payload`. Note the source
applies `cast(FileWatcherEventType, event_type)`, which performs no runtime
conversion: the raw token is forwarded unchanged. An absent uid makes the
subscript `self._handlers[uid]` raise `KeyError`; a payload with exactly one
colon makes the 3-way unpacking raise `ValueError`. -/
def on_payload (handlers : List (String × RegEntry)) (payload : String) :
    PayloadResult :=
  if pyContains payload ':' = false then
    .logged ("Invalid watcher output: " ++ payload)
  else
    match pySplitColon2 payload with
    | [uid, event_type, cwd_relative_path] =>
      match dictGet handlers uid with
      | none => .raised "KeyError"
      | some entry =>
        match entry.handler with
        | none => .logged "ERROR: on_payload(): Handler already deleted"
        | some handler_impl =>
          .invoked handler_impl [(event_type, pathJoin entry.rootPath cwd_relative_path)]
    | _ => .raised "ValueError"

/-- Modelled from the spec (section 4.2), not from the source: the
normalization table the spec says the codec applies to inbound event tokens
(`added` to `create`, `changed` to `change`, `removed` to `delete`, unknown
tokens rejected). Used only to compare the spec's claimed behaviour with
`on_payload`, which applies no such mapping. -/
def specNormalize : String → Option String
  | "added" => some "create"
  | "changed" => some "change"
  | "removed" => some "delete"
  | _ => none

/-- Continuation byte test for strict UTF-8 decoding. -/
def isCont (b : Nat) : Bool :=
  decide (0x80 ≤ b ∧ b ≤ 0xBF)

/-- Admissible range of the first continuation byte of a 3-byte sequence,
depending on the lead byte (excludes overlong forms and surrogates, as
Python's strict `bytes.decode('utf-8')` does). -/
def cont1Range3 (b c1 : Nat) : Bool :=
  if b = 0xE0 then decide (0xA0 ≤ c1 ∧ c1 ≤ 0xBF)
  else if b = 0xED then decide (0x80 ≤ c1 ∧ c1 ≤ 0x9F)
  else isCont c1

/-- Admissible range of the first continuation byte of a 4-byte sequence,
depending on the lead byte (excludes overlong forms and points above
U+10FFFF). -/
def cont1Range4 (b c1 : Nat) : Bool :=
  if b = 0xF0 then decide (0x90 ≤ c1 ∧ c1 ≤ 0xBF)
  else if b = 0xF4 then decide (0x80 ≤ c1 ∧ c1 ≤ 0x8F)
  else isCont c1

/-- Strict UTF-8 decoding of a byte sequence, modelling Python's
`bytes.decode('utf-8')`: `none` models `UnicodeDecodeError`. -/
def utf8Decode : List Nat → Option (List Char)
  | [] => some []
  | b :: rest =>
    if b ≤ 0x7F then
      (utf8Decode rest).map (Char.ofNat b :: ·)
    else if 0xC2 ≤ b ∧ b ≤ 0xDF then
      match rest with
      | c1 :: rest1 =>
        if isCont c1 then
          (utf8Decode rest1).map (Char.ofNat ((b - 0xC0) * 0x40 + (c1 - 0x80)) :: ·)
        else none
      | [] => none
    else if 0xE0 ≤ b ∧ b ≤ 0xEF then
      match rest with
      | c1 :: c2 :: rest2 =>
        if cont1Range3 b c1 ∧ isCont c2 then
          (utf8Decode rest2).map
            (Char.ofNat ((b - 0xE0) * 0x1000 + (c1 - 0x80) * 0x40 + (c2 - 0x80)) :: ·)
        else none
      | _ => none
    else if 0xF0 ≤ b ∧ b ≤ 0xF4 then
      match rest with
      | c1 :: c2 :: c3 :: rest3 =>
        if cont1Range4 b c1 ∧ isCont c2 ∧ isCont c3 then
          (utf8Decode rest3).map
            (Char.ofNat ((b - 0xF0) * 0x40000 + (c1 - 0x80) * 0x1000
              + (c2 - 0x80) * 0x40 + (c3 - 0x80)) :: ·)
        else none
      | _ => none
    else none

/-- Decoded byte sequence as a string. -/
def utf8DecodeStr (data : List Nat) : Option String :=
  (utf8Decode data).map fun cs => String.mk cs

/-- Python `str.isspace` characters relevant to `str.strip()` (ASCII range;
the source never feeds astral whitespace through `strip`). -/
def pyIsSpace (c : Char) : Bool :=
  c == ' ' || c == '\t' || c == '\n' || c == '\r' || c == '\x0b' || c == '\x0c'

/-- Python `str.strip()`: drop whitespace from both ends. -/
def pyStrip (s : String) : String :=
  String.mk (((s.toList.dropWhile pyIsSpace).reverse.dropWhile pyIsSpace).reverse)

/-- Outcome of one `StringTransportHandler.read_data` call on one raw line.
`result = none` means `StopLoopError` was raised (the read loop stops);
`result = some t` means the text `t` was returned to the payload queue.
`loggedDecodeError` records whether the `except` branch logged a decode
error. -/
structure ReadOutcome where
  loggedDecodeError : Bool
  result : Option String
deriving DecidableEq

/-- Shallow embedding of `StringTransportHandler.read_data` applied to the
bytes of one line. `text` starts as `None`; a decode error is caught and
logged, leaving `text` as `None`; then `if not text: raise StopLoopError()`.
So both a decode failure and an (after strip) empty decode raise
`StopLoopError`. -/
def read_data (data : List Nat) : ReadOutcome :=
  match utf8DecodeStr data with
  | none => { loggedDecodeError := true, result := none }
  | some s =>
    let text := pyStrip s
    if text = "" then { loggedDecodeError := false, result := none }
    else { loggedDecodeError := false, result := some text }

/-- State of a `FileWatcherChokidar` instance. `transport` is `true` when
`self._transport` is not `None`. `starts` counts the `_start_process` calls
performed so far and `stops` the `_end_process` calls that actually closed a
transport; `sent` records the command lines sent over the transport, in order.
Spawn failures and unexpected process exits are outside this model (claims
about the lifecycle explicitly exclude them), so `_start_process` always
succeeds here. -/
structure WatcherState where
  lastControllerId : Nat
  handlers : List (String × RegEntry)
  transport : Bool
  starts : Nat
  stops : Nat
  sent : List String
deriving DecidableEq

/-- The freshly constructed `FileWatcherChokidar()`. -/
def initState : WatcherState :=
  { lastControllerId := 0, handlers := [], transport := false,
    starts := 0, stops := 0, sent := [] }

/-- Shallow embedding of `FileWatcherChokidar._on_watcher_added` (called with
`self._last_controller_id` already advanced by `register_watcher`): store the
table entry, start the process when the table is non-empty and no transport
exists, then send the register command. -/
def on_watcher_added (s : WatcherState) (root_path : String)
    (patterns events ignores : List String) (handler : Nat) : WatcherState :=
  let s := { s with
    handlers := dictSet s.handlers (toString s.lastControllerId)
      { handler := some handler, rootPath := root_path } }
  let s :=
    if s.handlers.length ≠ 0 ∧ s.transport = false then
      { s with transport := true, starts := s.starts + 1 }
    else s
  if s.transport = false then s
  else { s with
    sent := s.sent ++ [registerCommand root_path patterns events ignores s.lastControllerId] }

/-- Shallow embedding of `FileWatcherChokidar.register_watcher`: allocate the
next controller id, build the controller and add the watcher. Returns the new
controller's id together with the new state. -/
def register_watcher (s : WatcherState) (root_path : String)
    (patterns events ignores : List String) (handler : Nat) :
    Nat × WatcherState :=
  let controller_id := s.lastControllerId + 1
  let s := { s with lastControllerId := controller_id }
  (controller_id, on_watcher_added s root_path patterns events ignores handler)

/-- Shallow embedding of `FileWatcherChokidar._on_watcher_removed` (what a
controller's `destroy()` invokes): pop the table entry (raising `KeyError`
when the id is absent), send the unregister command when a transport exists,
and end the process when the table became empty. -/
def on_watcher_removed (s : WatcherState) (controller_id : Nat) :
    Except String WatcherState :=
  match dictPop s.handlers (toString controller_id) with
  | none => .error "KeyError"
  | some handlers =>
    let s := { s with handlers := handlers }
    if s.transport = false then .ok s
    else
      let s := { s with sent := s.sent ++ [unregisterCommand controller_id] }
      if s.handlers.length = 0 ∧ s.transport = true then
        .ok { s with transport := false, stops := s.stops + 1 }
      else .ok s

/-- One call on the multiplexer facade. -/
inductive Op where
  | reg (root_path : String) (patterns events ignores : List String) (handler : Nat)
  | unreg (controller_id : Nat)

/-- Run one operation. -/
def stepOp (s : WatcherState) : Op → Except String WatcherState
  | .reg root_path patterns events ignores handler =>
    .ok (register_watcher s root_path patterns events ignores handler).2
  | .unreg controller_id => on_watcher_removed s controller_id

/-- Run a sequence of operations, stopping at the first uncaught exception. -/
def runOps (s : WatcherState) : List Op → Except String WatcherState
  | [] => .ok s
  | op :: ops =>
    match stepOp s op with
    | .ok s2 => runOps s2 ops
    | .error e => .error e

/-- Number of empty-to-non-empty transitions of the registration table along
the successfully executed prefix of an operation sequence. -/
def countUp (s : WatcherState) : List Op → Nat
  | [] => 0
  | op :: ops =>
    match stepOp s op with
    | .ok s2 =>
      (if s.handlers.length = 0 ∧ s2.handlers.length ≠ 0 then 1 else 0) + countUp s2 ops
    | .error _ => 0

/-- Number of non-empty-to-empty transitions of the registration table along
the successfully executed prefix of an operation sequence. -/
def countDown (s : WatcherState) : List Op → Nat
  | [] => 0
  | op :: ops =>
    match stepOp s op with
    | .ok s2 =>
      (if s.handlers.length ≠ 0 ∧ s2.handlers.length = 0 then 1 else 0) + countDown s2 ops
    | .error _ => 0

/-- The ids handed out by the `register_watcher` calls along the successfully
executed prefix of an operation sequence, in order. -/
def assignedIds (s : WatcherState) : List Op → List Nat
  | [] => []
  | op :: ops =>
    match op with
    | .reg root_path patterns events ignores handler =>
      let r := register_watcher s root_path patterns events ignores handler
      r.1 :: assignedIds r.2 ops
    | .unreg controller_id =>
      match on_watcher_removed s controller_id with
      | .ok s2 => assignedIds s2 ops
      | .error _ => []

/-- Abstract state of the install destination used by `_initialize_storage`.
`markerPresent`: the `.installing` marker file exists; `destDirExists`: the
`chokidar` destination directory exists; `nodeModulesExists`: its
`node_modules` subtree exists; `dstManifestHash`: the md5 of the installed
`package.json`, or `none` when that file is missing (so opening it raises
`FileNotFoundError`). -/
structure FS where
  markerPresent : Bool
  destDirExists : Bool
  nodeModulesExists : Bool
  dstManifestHash : Option Nat
deriving DecidableEq

/-- Which of the three steps inside the `TemporaryInstallationMarker` block
raise when invoked (environment of one installation attempt). -/
structure StepFailures where
  rmtreeRaises : Bool
  copytreeRaises : Bool
  npmInstallRaises : Bool
deriving DecidableEq

/-- Result of one installation attempt: the final filesystem state, whether an
exception escaped the `with` block, and which steps were invoked. -/
structure AttemptResult where
  fs : FS
  raised : Bool
  rmtreeRan : Bool
  copytreeRan : Bool
  npmInstallRan : Bool
deriving DecidableEq

/-- Shallow embedding of the `with TemporaryInstallationMarker(...)` block of
`_initialize_storage`: `__enter__` creates the marker; `rmtree` removes any
prior destination tree; `copytree` copies the canonical sources (installing
the manifest whose hash is `srcHash`); `npm_install` creates `node_modules`;
`__exit__` removes the marker only when no exception occurred, and leaves it
in place otherwise. -/
def installAttempt (srcHash : Nat) (fs0 : FS) (f : StepFailures) : AttemptResult :=
  let fs := { fs0 with markerPresent := true }
  let rmNeeded := fs.destDirExists
  if rmNeeded ∧ f.rmtreeRaises = true then
    { fs := fs, raised := true, rmtreeRan := true, copytreeRan := false,
      npmInstallRan := false }
  else
    let fs :=
      if rmNeeded then
        { fs with
          destDirExists := false
          nodeModulesExists := false
          dstManifestHash := none }
      else fs
    if f.copytreeRaises = true then
      { fs := fs, raised := true, rmtreeRan := rmNeeded, copytreeRan := true,
        npmInstallRan := false }
    else
      let fs := { fs with destDirExists := true, dstManifestHash := some srcHash }
      if f.npmInstallRaises = true then
        { fs := fs, raised := true, rmtreeRan := rmNeeded, copytreeRan := true,
          npmInstallRan := true }
      else
        { fs := { fs with nodeModulesExists := true, markerPresent := false },
          raised := false, rmtreeRan := rmNeeded, copytreeRan := true,
          npmInstallRan := true }

/-- The `installed` flag computed by `_initialize_storage`: the dependency
subtree exists, both manifest hashes were read (a missing installed manifest
raises `FileNotFoundError`, caught to leave `installed` false), they agree,
and no installation marker is present. -/
def installedCheck (srcHash : Nat) (fs : FS) : Bool :=
  if fs.nodeModulesExists then
    match fs.dstManifestHash with
    | none => false
    | some h => decide (h = srcHash) && !fs.markerPresent
  else false

/-- Shallow embedding of `FileWatcherChokidar._initialize_storage`: skip all
install work when `installed` is true, otherwise run an installation attempt
under the marker. The second component is `true` when the install block ran. -/
def initialize_storage (srcHash : Nat) (fs : FS) (f : StepFailures) :
    AttemptResult × Bool :=
  if installedCheck srcHash fs then
    ({ fs := fs, raised := false, rmtreeRan := false, copytreeRan := false,
       npmInstallRan := false }, false)
  else
    (installAttempt srcHash fs f, true)

/-- Claim C1 (counterexample): an inbound line that does contain a colon but
whose uid matches no table entry is NOT logged and discarded: the unguarded
subscript `self._handlers[uid]` raises `KeyError` out of `on_payload`. Here
the table holds only uid 7 and the line carries uid 9. -/
theorem c1_unknown_uid_raises_counterexample :
    pyContains "9:changed:x" ':' = true ∧
    dictGet [("7", ({ handler := some 0, rootPath := "/a/b" } : RegEntry))] "9" = none ∧
    on_payload [("7", { handler := some 0, rootPath := "/a/b" })] "9:changed:x"
      = .raised "KeyError" :=
  ⟨rfl, rfl, rfl⟩

/-- Claim C1 (amended): a line with no colon at all is logged and discarded
without raising; but a line whose uid matches no table entry makes dispatch
raise `KeyError` (the lookup is unguarded), it is not logged-and-discarded. -/
theorem c1_malformed_line_handling (handlers : List (String × RegEntry))
    (payload : String) :
    (pyContains payload ':' = false →
      on_payload handlers payload = .logged ("Invalid watcher output: " ++ payload)) ∧
    (∀ uid event_type rel, pyContains payload ':' = true →
      pySplitColon2 payload = [uid, event_type, rel] →
      dictGet handlers uid = none →
      on_payload handlers payload = .raised "KeyError") := by
  constructor
  · intro h1
    simp [on_payload, h1]
  · intro uid event_type rel h1 h2 h3
    simp [on_payload, h1, h2, h3]

/-- Witness for `c1_malformed_line_handling` at concrete inputs: the line
`nocolon` against an empty table, and the line `9:c:x` against a table holding
only uid 7. -/
theorem c1_malformed_line_handling_witness :
    on_payload [] "nocolon" = .logged ("Invalid watcher output: " ++ "nocolon") ∧
    on_payload [("7", { handler := some 0, rootPath := "/a/b" })] "9:c:x"
      = .raised "KeyError" :=
  ⟨(c1_malformed_line_handling [] "nocolon").1 rfl,
   (c1_malformed_line_handling [("7", { handler := some 0, rootPath := "/a/b" })]
     "9:c:x").2 "9" "c" "x" rfl rfl rfl⟩

/-- Claim C2 (counterexample): dispatch performs no token normalization — the
`cast(FileWatcherEventType, event_type)` in the source is a static-typing
no-op. For the claim's own example (line `7:changed:src/foo.py`, subscription
uid 7 rooted at `/a/b`, live handler) the handler receives the raw token
`changed`, not the normalized `change` the claim states. -/
theorem c2_raw_token_counterexample :
    on_payload [("7", { handler := some 0, rootPath := "/a/b" })] "7:changed:src/foo.py"
      = .invoked 0 [("changed", "/a/b/src/foo.py")] ∧
    specNormalize "changed" = some "change" ∧
    on_payload [("7", { handler := some 0, rootPath := "/a/b" })] "7:changed:src/foo.py"
      ≠ .invoked 0 [("change", "/a/b/src/foo.py")] := by
  refine ⟨rfl, rfl, ?_⟩
  decide

/-- Helper: a well-formed line whose uid resolves to a live handler invokes
that handler with the raw token and the joined path. -/
theorem on_payload_invoked (handlers : List (String × RegEntry))
    (payload uid event_type rel root : String) (hnd : Nat)
    (h1 : pyContains payload ':' = true)
    (h2 : pySplitColon2 payload = [uid, event_type, rel])
    (h3 : dictGet handlers uid = some { handler := some hnd, rootPath := root }) :
    on_payload handlers payload = .invoked hnd [(event_type, pathJoin root rel)] := by
  simp [on_payload, h1, h2, h3]

/-- Claim C2 (amended): the raw event token of a well-formed inbound line is
passed to the handler unchanged — no mapping to a normalized event kind and no
rejection of unknown tokens happens in dispatch. -/
theorem c2_raw_token_passthrough (handlers : List (String × RegEntry))
    (payload uid event_type rel root : String) (hnd : Nat)
    (h1 : pyContains payload ':' = true)
    (h2 : pySplitColon2 payload = [uid, event_type, rel])
    (h3 : dictGet handlers uid = some { handler := some hnd, rootPath := root }) :
    on_payload handlers payload = .invoked hnd [(event_type, pathJoin root rel)] :=
  on_payload_invoked handlers payload uid event_type rel root hnd h1 h2 h3

/-- Witness for `c2_raw_token_passthrough` on the line `7:changed:src/foo.py`
with uid 7 registered at root `/a/b`: the batch carries the raw token
`changed`. -/
theorem c2_raw_token_passthrough_witness :
    on_payload [("7", { handler := some 0, rootPath := "/a/b" })] "7:changed:src/foo.py"
      = .invoked 0 [("changed", pathJoin "/a/b" "src/foo.py")] :=
  c2_raw_token_passthrough [("7", { handler := some 0, rootPath := "/a/b" })]
    "7:changed:src/foo.py" "7" "changed" "src/foo.py" "/a/b" 0 rfl rfl rfl

/-- Claim C9: a well-formed line whose uid is registered but whose handler
weak reference has expired is logged and dropped: no handler invocation, no
exception. -/
theorem c9_expired_handler_dropped (handlers : List (String × RegEntry))
    (payload uid event_type rel root : String)
    (h1 : pyContains payload ':' = true)
    (h2 : pySplitColon2 payload = [uid, event_type, rel])
    (h3 : dictGet handlers uid = some { handler := none, rootPath := root }) :
    on_payload handlers payload
      = .logged "ERROR: on_payload(): Handler already deleted" := by
  simp [on_payload, h1, h2, h3]

/-- Witness for `c9_expired_handler_dropped`: line `7:changed:src/foo.py`
against a table whose uid-7 weak reference has expired. -/
theorem c9_expired_handler_dropped_witness :
    on_payload [("7", { handler := none, rootPath := "/a/b" })] "7:changed:src/foo.py"
      = .logged "ERROR: on_payload(): Handler already deleted" :=
  c9_expired_handler_dropped [("7", { handler := none, rootPath := "/a/b" })]
    "7:changed:src/foo.py" "7" "changed" "src/foo.py" "/a/b" rfl rfl rfl

/-- Claim C3 (counterexample): a subscription registered with requested event
kinds `["create"]` still gets its handler invoked for an inbound `changed`
event — dispatch applies no event-kind filter. The registration table entry
stores only the weak handler reference and the root path; the requested kinds
are only forwarded to the external process inside the register command. -/
theorem c3_no_event_kind_filter_counterexample :
    ((register_watcher initState "/a/b" ["*"] ["create"] [] 0).2).sent
      = [registerCommand "/a/b" ["*"] ["create"] [] 1] ∧
    ("changed" : String) ∉ (["create"] : List String) ∧
    specNormalize "changed" = some "change" ∧
    ("change" : String) ∉ (["create"] : List String) ∧
    on_payload ((register_watcher initState "/a/b" ["*"] ["create"] [] 0).2).handlers
      "1:changed:x" = .invoked 0 [("changed", "/a/b/x")] := by
  refine ⟨rfl, by decide, rfl, by decide, rfl⟩

/-- Claim C3 (amended): dispatch performs no filtering by the subscription's
requested event kinds. Whatever list of kinds was requested at registration,
the table entry keeps only the weak handler reference and the root path (the
kinds go solely into the register command sent to the external process), and
any well-formed event line for that uid invokes the handler regardless of its
event token. -/
theorem c3_dispatch_ignores_event_kinds
    (root : String) (patterns events ignores : List String) (hnd : Nat)
    (payload event_type rel : String)
    (h1 : pyContains payload ':' = true)
    (h2 : pySplitColon2 payload = ["1", event_type, rel]) :
    ((register_watcher initState root patterns events ignores hnd).2).handlers
      = [("1", { handler := some hnd, rootPath := root })] ∧
    ((register_watcher initState root patterns events ignores hnd).2).sent
      = [registerCommand root patterns events ignores 1] ∧
    on_payload ((register_watcher initState root patterns events ignores hnd).2).handlers
      payload = .invoked hnd [(event_type, pathJoin root rel)] := by
  refine ⟨rfl, rfl, ?_⟩
  exact on_payload_invoked _ payload "1" event_type rel root hnd h1 h2 rfl

/-- Witness for `c3_dispatch_ignores_event_kinds`: a subscription requesting
only `create` events still has its handler invoked for a `changed` line. -/
theorem c3_dispatch_ignores_event_kinds_witness :
    ((register_watcher initState "/a/b" ["*"] ["create"] [] 0).2).handlers
      = [("1", { handler := some 0, rootPath := "/a/b" })] ∧
    ((register_watcher initState "/a/b" ["*"] ["create"] [] 0).2).sent
      = [registerCommand "/a/b" ["*"] ["create"] [] 1] ∧
    on_payload ((register_watcher initState "/a/b" ["*"] ["create"] [] 0).2).handlers
      "1:changed:x" = .invoked 0 [("changed", pathJoin "/a/b" "x")] :=
  c3_dispatch_ignores_event_kinds "/a/b" ["*"] ["create"] [] 0
    "1:changed:x" "changed" "x" rfl rfl

/-- Claim C7 (counterexample): the byte line `0xFF` fails to decode; the
decode error is logged, but the read loop does NOT continue: `text` stays
`None`, so `read_data` raises `StopLoopError` and the loop stops even though
the line did not decode to empty text. -/
theorem c7_decode_failure_stops_counterexample :
    utf8DecodeStr [0xFF] = none ∧
    (read_data [0xFF]).loggedDecodeError = true ∧
    (read_data [0xFF]).result = none :=
  ⟨rfl, rfl, rfl⟩

/-- Claim C7 (amended): the read loop stops iff the line fails to decode OR
decodes (after strip) to empty text; a decode failure is logged but then also
stops the loop, because `text` remains `None` and `if not text` fires. Only a
line that decodes to non-empty stripped text is returned and keeps the loop
running. -/
theorem c7_read_loop_stop_condition (data : List Nat) :
    ((read_data data).result = none ↔
      utf8DecodeStr data = none ∨
        ∃ s, utf8DecodeStr data = some s ∧ pyStrip s = "") ∧
    ((read_data data).loggedDecodeError = true ↔ utf8DecodeStr data = none) ∧
    (∀ s, utf8DecodeStr data = some s → pyStrip s ≠ "" →
      (read_data data).result = some (pyStrip s) ∧
        (read_data data).loggedDecodeError = false) := by
  rcases h : utf8DecodeStr data with _ | s
  · simp [read_data, h]
  · by_cases he : pyStrip s = ""
    · simp [read_data, h, he]
    · simp [read_data, h, he]

/-- Witness for `c7_read_loop_stop_condition`: the byte line `7:a\n` decodes
to `7:a` after strip, is returned, and the loop continues. -/
theorem c7_read_loop_stop_condition_witness :
    (read_data [55, 58, 97, 10]).result = some (pyStrip "7:a\n") ∧
    (read_data [55, 58, 97, 10]).loggedDecodeError = false :=
  (c7_read_loop_stop_condition [55, 58, 97, 10]).2.2 "7:a\n" rfl (by decide)

/-- Helper: a dict assignment never yields an empty dict. -/
theorem dictSet_ne_nil {α : Type} (l : List (String × α)) (k : String) (v : α) :
    dictSet l k v ≠ [] := by
  cases l with
  | nil => simp [dictSet]
  | cons hd tl =>
    simp only [dictSet]
    split <;> simp

/-- Helper: a successful pop implies the dict was non-empty. -/
theorem ne_nil_of_dictPop {α : Type} (l : List (String × α)) (k : String)
    (l2 : List (String × α)) (h : dictPop l k = some l2) : l ≠ [] := by
  intro he
  rw [he] at h
  simp [dictPop] at h

/-- Helper describing one `_on_watcher_added` call on a state satisfying the
transport invariant: afterwards a transport exists and the table is non-empty;
`_start_process` ran exactly when the table was empty before; no transport was
closed; the id counter is untouched. -/
theorem on_watcher_added_step (s : WatcherState) (root_path : String)
    (patterns events ignores : List String) (handler : Nat)
    (hinv : s.transport = true ↔ s.handlers ≠ []) :
    (on_watcher_added s root_path patterns events ignores handler).transport = true ∧
    (on_watcher_added s root_path patterns events ignores handler).handlers ≠ [] ∧
    (on_watcher_added s root_path patterns events ignores handler).starts
      = s.starts + (if s.handlers.length = 0 then 1 else 0) ∧
    (on_watcher_added s root_path patterns events ignores handler).stops = s.stops ∧
    (on_watcher_added s root_path patterns events ignores handler).lastControllerId
      = s.lastControllerId := by
  cases hT : s.transport with
  | false =>
    have hH : s.handlers = [] := by
      by_contra hne
      have h2 := hinv.mpr hne
      rw [hT] at h2
      exact Bool.false_ne_true h2
    simp [on_watcher_added, hT, hH, dictSet]
  | true =>
    have hH : s.handlers ≠ [] := hinv.mp hT
    have hL : s.handlers.length ≠ 0 := by
      simpa [List.length_eq_zero] using hH
    simp [on_watcher_added, hT, hL, dictSet_ne_nil]

/-- Helper describing one successful `_on_watcher_removed` call on a state
satisfying the transport invariant: the invariant is preserved, no process is
started, `_end_process` ran exactly when the table became empty, and the id
counter is untouched. -/
theorem on_watcher_removed_step (s s2 : WatcherState) (controller_id : Nat)
    (hinv : s.transport = true ↔ s.handlers ≠ [])
    (h : on_watcher_removed s controller_id = .ok s2) :
    (s2.transport = true ↔ s2.handlers ≠ []) ∧
    s2.starts = s.starts ∧
    s2.stops = s.stops
      + (if s.handlers.length ≠ 0 ∧ s2.handlers.length = 0 then 1 else 0) ∧
    s2.lastControllerId = s.lastControllerId := by
  cases hp : dictPop s.handlers (toString controller_id) with
  | none =>
    simp [on_watcher_removed, hp] at h
  | some hs =>
    have hne : s.handlers ≠ [] := ne_nil_of_dictPop _ _ _ hp
    have hL : s.handlers.length ≠ 0 := by
      simpa [List.length_eq_zero] using hne
    have hT : s.transport = true := hinv.mpr hne
    simp only [on_watcher_removed, hp, hT] at h
    by_cases hl : hs.length = 0
    · simp only [hl, if_pos, Bool.true_eq_false, if_false, and_true, if_true,
        Except.ok.injEq, reduceIte] at h
      subst h
      have hhs : hs = [] := List.length_eq_zero.mp hl
      simp [hT, hL, hl, hhs]
    · simp only [Bool.true_eq_false, reduceIte, hl, false_and, and_false,
        Except.ok.injEq] at h
      subst h
      have hhs : hs ≠ [] := fun he => hl (by simp [he])
      simp [hT, hL, hl, hhs]

/-- Helper: along any successfully executed operation sequence the transport
invariant is preserved, the `starts` counter advances by the number of
empty-to-non-empty table transitions and the `stops` counter by the number of
non-empty-to-empty transitions. -/
theorem runOps_inv (ops : List Op) (s0 s : WatcherState)
    (hinv : s0.transport = true ↔ s0.handlers ≠ [])
    (h : runOps s0 ops = .ok s) :
    (s.transport = true ↔ s.handlers ≠ []) ∧
    s.starts = s0.starts + countUp s0 ops ∧
    s.stops = s0.stops + countDown s0 ops := by
  induction ops generalizing s0 with
  | nil =>
    simp only [runOps, Except.ok.injEq] at h
    subst h
    simp [countUp, countDown, hinv]
  | cons op ops ih =>
    cases op with
    | reg root_path patterns events ignores handler =>
      simp only [runOps, stepOp, countUp, countDown, register_watcher] at h ⊢
      obtain ⟨hT1, hne1, hstarts1, hstops1, _⟩ :=
        on_watcher_added_step
          { s0 with lastControllerId := s0.lastControllerId + 1 }
          root_path patterns events ignores handler hinv
      have hinv1 := iff_of_true hT1 hne1
      obtain ⟨ih1, ih2, ih3⟩ := ih _ hinv1 h
      have hL1 :
          (on_watcher_added { s0 with lastControllerId := s0.lastControllerId + 1 }
            root_path patterns events ignores handler).handlers.length ≠ 0 := by
        simpa [List.length_eq_zero] using hne1
      refine ⟨ih1, ?_, ?_⟩
      · rw [ih2, hstarts1]
        simp only [hL1, ne_eq, not_false_eq_true, and_true]
        by_cases hc : s0.handlers.length = 0
        · simp [hc]
          omega
        · simp [hc]
      · rw [ih3, hstops1]
        simp [hL1]
    | unreg controller_id =>
      cases heq : on_watcher_removed s0 controller_id with
      | error e =>
        simp only [runOps, stepOp, heq] at h
        exact absurd h (by simp)
      | ok s1 =>
        simp only [runOps, stepOp, countUp, countDown, heq] at h ⊢
        obtain ⟨hinv1, hstarts1, hstops1, _⟩ :=
          on_watcher_removed_step s0 s1 controller_id hinv heq
        obtain ⟨ih1, ih2, ih3⟩ := ih _ hinv1 h
        have hne0 : s0.handlers ≠ [] := by
          intro he
          rw [on_watcher_removed, he] at heq
          simp [dictPop] at heq
        have hL0 : s0.handlers.length ≠ 0 := by
          simpa [List.length_eq_zero] using hne0
        refine ⟨ih1, ?_, ?_⟩
        · rw [ih2, hstarts1]
          have hcond : (if s0.handlers.length = 0 ∧ s1.handlers.length ≠ 0
              then 1 else 0) = 0 := by
            simp [hL0]
          rw [hcond]
          omega
        · rw [ih3, hstops1]
          by_cases hc : s0.handlers.length ≠ 0 ∧ s1.handlers.length = 0 <;>
            simp [hc] <;> omega

/-- Claim C4: for every sequence of register/unregister calls that runs
without exception (spawn failures and unexpected exits excluded by
construction of the model), a transport exists iff the registration table is
non-empty, the process was started exactly once per empty-to-non-empty
transition and stopped exactly once per non-empty-to-empty transition. -/
theorem c4_transport_iff_nonempty (ops : List Op) (s : WatcherState)
    (h : runOps initState ops = .ok s) :
    (s.transport = true ↔ s.handlers ≠ []) ∧
    s.starts = countUp initState ops ∧
    s.stops = countDown initState ops := by
  have hinv : initState.transport = true ↔ initState.handlers ≠ [] := by
    simp [initState]
  obtain ⟨h1, h2, h3⟩ := runOps_inv ops initState s hinv h
  refine ⟨h1, ?_, ?_⟩
  · simpa [initState] using h2
  · simpa [initState] using h3

/-- The state reached by a single registration from the initial state, used to
instantiate `c4_transport_iff_nonempty`. -/
def c4demoState : WatcherState :=
  { lastControllerId := 1,
    handlers := [("1", { handler := some 5, rootPath := "/r" })],
    transport := true, starts := 1, stops := 0,
    sent := [registerCommand "/r" [] [] [] 1] }

/-- Witness for `c4_transport_iff_nonempty`: one register call starts the
process exactly once and leaves a non-empty table with a transport. -/
theorem c4_transport_iff_nonempty_witness :
    (c4demoState.transport = true ↔ c4demoState.handlers ≠ []) ∧
    c4demoState.starts = countUp initState [Op.reg "/r" [] [] [] 5] ∧
    c4demoState.stops = countDown initState [Op.reg "/r" [] [] [] 5] :=
  c4_transport_iff_nonempty [Op.reg "/r" [] [] [] 5] c4demoState rfl

/-- Helper: `_on_watcher_added` never touches the id counter. -/
theorem on_watcher_added_lastControllerId (s : WatcherState) (root_path : String)
    (patterns events ignores : List String) (handler : Nat) :
    (on_watcher_added s root_path patterns events ignores handler).lastControllerId
      = s.lastControllerId := by
  simp only [on_watcher_added]
  split <;> split <;> rfl

/-- Helper: a successful `_on_watcher_removed` never touches the id counter. -/
theorem on_watcher_removed_lastControllerId (s s2 : WatcherState)
    (controller_id : Nat) (h : on_watcher_removed s controller_id = .ok s2) :
    s2.lastControllerId = s.lastControllerId := by
  cases hp : dictPop s.handlers (toString controller_id) with
  | none =>
    rw [on_watcher_removed, hp] at h
    exact absurd h (by simp)
  | some hs =>
    rw [on_watcher_removed, hp] at h
    dsimp only at h
    split at h
    · simp only [Except.ok.injEq] at h
      subst h
      rfl
    · split at h <;>
      · simp only [Except.ok.injEq] at h
        subst h
        rfl

/-- Helper: from any state, the ids handed out along an operation sequence are
exactly the consecutive integers following the current id counter. -/
theorem assignedIds_range (ops : List Op) (s : WatcherState) :
    ∃ k, assignedIds s ops = List.range' (s.lastControllerId + 1) k := by
  induction ops generalizing s with
  | nil => exact ⟨0, rfl⟩
  | cons op ops ih =>
    cases op with
    | reg root_path patterns events ignores handler =>
      obtain ⟨k, hk⟩ :=
        ih (register_watcher s root_path patterns events ignores handler).2
      refine ⟨k + 1, ?_⟩
      have hid :
          (register_watcher s root_path patterns events ignores handler).2.lastControllerId
            = s.lastControllerId + 1 :=
        on_watcher_added_lastControllerId
          { s with lastControllerId := s.lastControllerId + 1 }
          root_path patterns events ignores handler
      simp only [assignedIds]
      rw [List.range'_succ, hk, hid]
      rfl
    | unreg controller_id =>
      cases heq : on_watcher_removed s controller_id with
      | error e => exact ⟨0, by simp [assignedIds, heq]⟩
      | ok s1 =>
        obtain ⟨k, hk⟩ := ih s1
        refine ⟨k, ?_⟩
        simp only [assignedIds, heq]
        rw [hk, on_watcher_removed_lastControllerId s s1 controller_id heq]

/-- Claim C8: along any operation sequence from a fresh multiplexer, the
assigned subscription ids form an initial run of the consecutive integers
starting at 1 — hence they start at 1, are strictly increasing, and are never
reused even across unregister/register cycles. -/
theorem c8_ids_strictly_increasing (ops : List Op) :
    ∃ k, assignedIds initState ops = List.range' 1 k ∧
      (assignedIds initState ops).Chain' (· < ·) ∧
      (assignedIds initState ops).Nodup := by
  obtain ⟨k, hk⟩ := assignedIds_range ops initState
  refine ⟨k, hk, ?_, ?_⟩
  · rw [hk]
    exact (List.pairwise_lt_range' 1 k).chain'
  · rw [hk]
    exact List.nodup_range' 1 k

/-- Claim C10: popping an id that is no longer in the registration table (as a
second `destroy()` of the same controller does, the first having removed the
entry) raises `KeyError` out of `_on_watcher_removed`; it is not a silent
no-op. -/
theorem c10_double_destroy_keyerror (s : WatcherState) (controller_id : Nat)
    (h : dictPop s.handlers (toString controller_id) = none) :
    on_watcher_removed s controller_id = .error "KeyError" := by
  rw [on_watcher_removed, h]

/-- The state reached by registering one watcher and then destroying it, used
to instantiate `c10_double_destroy_keyerror` as the second `destroy()` call. -/
def c10demoState : WatcherState :=
  { lastControllerId := 1, handlers := [], transport := false,
    starts := 1, stops := 1,
    sent := [registerCommand "/r" [] [] [] 1, unregisterCommand 1] }

/-- Witness for `c10_double_destroy_keyerror`: running register, destroy,
destroy from the initial state raises `KeyError` on the second destroy. -/
theorem c10_double_destroy_keyerror_witness :
    runOps initState [Op.reg "/r" [] [] [] 5, Op.unreg 1, Op.unreg 1]
      = .error "KeyError" ∧
    on_watcher_removed c10demoState 1 = .error "KeyError" :=
  ⟨rfl, c10_double_destroy_keyerror c10demoState 1 rfl⟩

/-- An environment where none of the install steps raises. -/
def noFailures : StepFailures :=
  { rmtreeRaises := false, copytreeRaises := false, npmInstallRaises := false }

/-- Helper: the installed-check always fails while the marker is present. -/
theorem installedCheck_false_of_marker (srcHash : Nat) (fs : FS)
    (h : fs.markerPresent = true) : installedCheck srcHash fs = false := by
  rcases fs with ⟨mk, dd, nm, mh⟩
  simp only at h
  subst h
  cases nm <;> cases mh <;> simp [installedCheck]

/-- Helper: an attempt from which an exception escaped leaves the marker file
in place. -/
theorem installAttempt_raised_marker (srcHash : Nat) (fs : FS) (f : StepFailures)
    (h : (installAttempt srcHash fs f).raised = true) :
    (installAttempt srcHash fs f).fs.markerPresent = true := by
  rcases fs with ⟨mk, dd, nm, mh⟩
  rcases f with ⟨r1, c1, n1⟩
  cases r1 <;> cases c1 <;> cases n1 <;> cases dd <;>
    simp_all [installAttempt]

/-- Claim C5: if any step of an installation attempt raises, the in-progress
marker is left in place and a later `_initialize_storage` call (with any
expected hash and step environment) finds the install invalid and runs the
install block again; the marker is removed exactly when every step completed
successfully. -/
theorem c5_marker_crash_safety (srcHash srcHash2 : Nat) (fs : FS)
    (f f2 : StepFailures) :
    ((installAttempt srcHash fs f).raised = true →
      (installAttempt srcHash fs f).fs.markerPresent = true ∧
      (initialize_storage srcHash2 (installAttempt srcHash fs f).fs f2).2 = true) ∧
    ((installAttempt srcHash fs f).raised = false →
      (installAttempt srcHash fs f).fs.markerPresent = false) := by
  constructor
  · intro h
    have hm := installAttempt_raised_marker srcHash fs f h
    refine ⟨hm, ?_⟩
    simp [initialize_storage, installedCheck_false_of_marker srcHash2 _ hm]
  · intro h
    rcases fs with ⟨mk, dd, nm, mh⟩
    rcases f with ⟨r1, c1, n1⟩
    cases r1 <;> cases c1 <;> cases n1 <;> cases dd <;>
      simp_all [installAttempt]

/-- Witness for `c5_marker_crash_safety`: `npm install` raises during an
attempt; the marker survives and the next `_initialize_storage` call
reinstalls. -/
theorem c5_marker_crash_safety_witness :
    (installAttempt 9
      { markerPresent := false, destDirExists := true,
        nodeModulesExists := true, dstManifestHash := some 4 }
      { rmtreeRaises := false, copytreeRaises := false,
        npmInstallRaises := true }).fs.markerPresent = true ∧
    (initialize_storage 9
      (installAttempt 9
        { markerPresent := false, destDirExists := true,
          nodeModulesExists := true, dstManifestHash := some 4 }
        { rmtreeRaises := false, copytreeRaises := false,
          npmInstallRaises := true }).fs noFailures).2 = true :=
  (c5_marker_crash_safety 9 9
    { markerPresent := false, destDirExists := true,
      nodeModulesExists := true, dstManifestHash := some 4 }
    { rmtreeRaises := false, copytreeRaises := false, npmInstallRaises := true }
    noFailures).1 rfl

/-- Claim C6: with no step failing, `_initialize_storage` skips all install
work iff the dependency subtree exists, the installed manifest hash equals the
expected hash, and no marker is present (so a marker present with a matching
hash still reinstalls); in every other case it runs the install block, which
deletes the prior tree exactly when one exists, copies the sources and runs
the package-install step. -/
theorem c6_install_skip_iff_valid (srcHash : Nat) (fs : FS) :
    ((initialize_storage srcHash fs noFailures).2 = false ↔
      fs.nodeModulesExists = true ∧ fs.dstManifestHash = some srcHash ∧
        fs.markerPresent = false) ∧
    ((initialize_storage srcHash fs noFailures).2 = true →
      (initialize_storage srcHash fs noFailures).1.rmtreeRan = fs.destDirExists ∧
      (initialize_storage srcHash fs noFailures).1.copytreeRan = true ∧
      (initialize_storage srcHash fs noFailures).1.npmInstallRan = true) := by
  rcases fs with ⟨mk, dd, nm, mh⟩
  rcases mh with _ | hv
  · cases mk <;> cases dd <;> cases nm <;>
      simp [initialize_storage, installedCheck, installAttempt, noFailures]
  · cases mk <;> cases dd <;> cases nm <;>
      by_cases hh : hv = srcHash <;>
        simp [initialize_storage, installedCheck, installAttempt, noFailures, hh]

/-- Witness for `c6_install_skip_iff_valid`: marker present with a matching
hash and existing subtree still reinstalls — removing the old tree, copying
and installing. -/
theorem c6_install_skip_iff_valid_witness :
    (initialize_storage 9
      { markerPresent := true, destDirExists := true,
        nodeModulesExists := true, dstManifestHash := some 9 }
      noFailures).1.rmtreeRan = true ∧
    (initialize_storage 9
      { markerPresent := true, destDirExists := true,
        nodeModulesExists := true, dstManifestHash := some 9 }
      noFailures).1.copytreeRan = true ∧
    (initialize_storage 9
      { markerPresent := true, destDirExists := true,
        nodeModulesExists := true, dstManifestHash := some 9 }
      noFailures).1.npmInstallRan = true :=
  (c6_install_skip_iff_valid 9
    { markerPresent := true, destDirExists := true,
      nodeModulesExists := true, dstManifestHash := some 9 }).2 rfl
